import Mathlib

/-!
Shallow embedding of the Bluetooth task of the Mynd firmware
(`src/Projects/Mynd/src/tasks/bluetooth/task_bluetooth.cpp`): the status
arbitration, indicator scheduling, connection/idle accounting and power
sequencing engine, together with proofs of its specified properties.

Machine integers: the firmware computes elapsed milliseconds with 32-bit
wrap-around subtraction (`board_get_ms_since`); we model timestamps as `Nat`
values below `2^32` and elapsed time as subtraction modulo `2^32`.
-/

namespace Mynd

/-- `2^32`, the modulus of the firmware's 32-bit tick arithmetic. -/
def U32 : Nat := 4294967296

/-- `UINT32_MAX`, used as the "power-on sound icon settled" sentinel. -/
def UINT32_MAX : Nat := 4294967295

/-- Modelled from the spec: `board_get_ms_since` (board support library, not
under `src/`) returns the milliseconds elapsed since a recorded systick
timestamp, i.e. 32-bit wrap-around subtraction `now - ts`. -/
def msSince (now ts : Nat) : Nat :=
  (now + (U32 - ts % U32)) % U32

/-- `actionslink_csb_state_t`. -/
inductive CsbState
  | disabled
  | broadcasting
  | receiverConnected
  | receiverPairing
  deriving DecidableEq, Repr

/-- `actionslink_bt_pairing_state_t`. -/
inductive BtPairingState
  | idle
  | btPairing
  | csbBroadcasting
  | csbReceiving
  deriving DecidableEq, Repr

/-- `actionslink_audio_source_t`. -/
inductive AudioSource
  | analog
  | usb
  | a2dp1
  | a2dp2
  deriving DecidableEq, Repr

/-- `Teufel::Ux::Bluetooth::Status`. -/
inductive Status
  | none
  | bluetoothPairing
  | slavePairing
  | csbChainMaster
  | chainSlave
  | auxConnected
  | dfuMode
  | usbConnected
  | bluetoothConnected
  | bluetoothDisconnected
  deriving DecidableEq, Repr

/-- `actionslink_sound_icon_t` (the values used in this task). -/
inductive SoundIcon
  | none
  | positiveFeedback
  | charging
  | batteryLow
  | btPairing
  | chainMasterEntered
  | chainSlavePairing
  | chainConnected
  | chainDisconnected
  | powerOn
  | btConnected
  | btDisconnected
  deriving DecidableEq, Repr

/-- `actionslink_sound_icon_playback_mode_t`. -/
inductive PlaybackMode
  | playImmediately
  | playAfterCurrent
  deriving DecidableEq, Repr

/-- Messages posted by the Bluetooth task to its own queue or to the Audio
task (the subset relevant to the status/indicator engine). -/
inductive PostedMsg
  | requestSoundIcon (icon : SoundIcon) (mode : PlaybackMode) (loopForever : Bool)
  | stopPlayingSoundIcon (icon : SoundIcon)
  | playPause
  | audioTaskStatus (st : Status)
  deriving DecidableEq, Repr

/-- The `s_bluetooth` session-state record. -/
structure SBluetooth where
  is_connected : Bool
  is_usb_source_available : Bool
  usb_plug_connected : Bool
  dfu_mode_is_active : Bool
  was_streaming : Bool
  has_received_power_off_confirmation : Bool
  update_bt_state : Bool
  update_bt_state_ts : Nat
  number_of_connected_devices : Nat
  pairing_state : BtPairingState
  csb_state : CsbState
  audio_source : Option AudioSource
  power_on_sound_icon_ts : Nat
  curr_sound_icon : SoundIcon
  curr_sound_icon_begin_ts : Nat
  last_no_bt_connection_ts : Nat
  deriving DecidableEq, Repr

/-- The initial value of `s_bluetooth`. -/
def SBluetooth.init : SBluetooth where
  is_connected := false
  is_usb_source_available := false
  usb_plug_connected := false
  dfu_mode_is_active := false
  was_streaming := false
  has_received_power_off_confirmation := false
  update_bt_state := false
  update_bt_state_ts := 0
  number_of_connected_devices := 0
  pairing_state := .idle
  csb_state := .disabled
  audio_source := Option.none
  power_on_sound_icon_ts := 0
  curr_sound_icon := .none
  curr_sound_icon_begin_ts := 0
  last_no_bt_connection_ts := 0

/-- `SoundIconToLengthMapper`: nominal playtime (ms) of the one-shot icons. -/
def SoundIconToLengthMapper : SoundIcon → Option Nat
  | .positiveFeedback => some 180
  | .charging => some 1440
  | .batteryLow => some 910
  | .btPairing => some 4570
  | .chainMasterEntered => some 4570
  | .chainSlavePairing => some 4570
  | .powerOn => some 1670
  | _ => Option.none

/-- `c_update_bt_state_ts_duration`. -/
def c_update_bt_state_ts_duration : Nat := 200

/-- `CsbStateMapper`. -/
def CsbStateMapper : CsbState → Option Status
  | .broadcasting => some .csbChainMaster
  | .receiverConnected => some .chainSlave
  | .receiverPairing => some .slavePairing
  | _ => Option.none

/-- `PairingStateMapper`. -/
def PairingStateMapper : BtPairingState → Option Status
  | .btPairing => some .bluetoothPairing
  | .csbBroadcasting => some .csbChainMaster
  | .csbReceiving => some .slavePairing
  | _ => Option.none

/-- `SoundIconMapper`: status → sound icon played on entering it. -/
def SoundIconMapper : Status → Option SoundIcon
  | .csbChainMaster => some .chainMasterEntered
  | .chainSlave => some .chainConnected
  | .slavePairing => some .chainSlavePairing
  | _ => Option.none

instance : Fintype CsbState :=
  ⟨⟨{.disabled, .broadcasting, .receiverConnected, .receiverPairing}, by decide⟩,
    fun x => by cases x <;> decide⟩

instance : Fintype BtPairingState :=
  ⟨⟨{.idle, .btPairing, .csbBroadcasting, .csbReceiving}, by decide⟩,
    fun x => by cases x <;> decide⟩

instance : Fintype AudioSource :=
  ⟨⟨{.analog, .usb, .a2dp1, .a2dp2}, by decide⟩, fun x => by cases x <;> decide⟩

/-- `power_on_sound_icon_played`. -/
def power_on_sound_icon_played (s : SBluetooth) : Bool :=
  s.power_on_sound_icon_ts = UINT32_MAX

/-- The status computation inside `handle_new_bt_state` (lines 214–246):
the if/else-if chain deciding `bt_state` from the session-state snapshot,
given a known audio source and the physical jack-detect input. -/
def computeBtState (csb : CsbState) (pairing : BtPairingState) (audio : AudioSource)
    (jackConnected dfuActive usbAvailable isConnected : Bool) : Status :=
  match CsbStateMapper csb with
  | some st => st
  | Option.none =>
    match PairingStateMapper pairing with
    | some st => st
    | Option.none =>
      if audio = .analog ∧ jackConnected then .auxConnected
      else if dfuActive then .dfuMode
      else if audio = .usb ∧ usbAvailable then .usbConnected
      else if isConnected then .bluetoothConnected
      else .bluetoothDisconnected

/-- Result of `handle_new_bt_state`: the updated session state, the (possibly
re-published) `Tub::Status` property, and the messages posted. -/
structure HnbsResult where
  s : SBluetooth
  status : Status
  posts : List PostedMsg
  deriving DecidableEq, Repr

/-- `handle_new_bt_state` (lines 200–290).  Inputs beyond the session state:
the currently published `Tub::Status` property, the `SoundIconsActive`
property, and the physical jack-detect line. -/
def handle_new_bt_state (s : SBluetooth) (prevStatus : Status)
    (soundIconsActive jackConnected : Bool) : HnbsResult :=
  match s.audio_source with
  | Option.none => ⟨s, prevStatus, []⟩
  | some audio =>
    -- Do not trigger any indications until the power on sound icon is played
    if ¬ power_on_sound_icon_played s ∧ soundIconsActive then
      ⟨s, prevStatus, []⟩
    else
      let bt_state := computeBtState s.csb_state s.pairing_state audio jackConnected
        s.dfu_mode_is_active s.is_usb_source_available s.is_connected
      if (prevStatus = .csbChainMaster ∧ bt_state = .csbChainMaster) ∨
         (prevStatus = .chainSlave ∧ bt_state = .chainSlave) then
        ⟨s, prevStatus, []⟩
      else
        let iconPosts : List PostedMsg :=
          match SoundIconMapper bt_state with
          | some icon =>
            let repeatForever := bt_state = .bluetoothPairing ∨ bt_state = .slavePairing
            [.requestSoundIcon icon .playImmediately repeatForever]
          | Option.none =>
            match prevStatus with
            | .csbChainMaster =>
              [.requestSoundIcon .chainDisconnected .playAfterCurrent false]
            | .chainSlave =>
              [.requestSoundIcon .chainDisconnected .playAfterCurrent false]
            | _ => []
        let streamingPosts : List PostedMsg :=
          if s.was_streaming ∧ ¬ (bt_state = .bluetoothPairing ∨ bt_state = .slavePairing) then
            [.playPause]
          else []
        { s := { s with was_streaming :=
                  if s.was_streaming ∧ ¬ (bt_state = .bluetoothPairing ∨ bt_state = .slavePairing)
                  then false else s.was_streaming }
          status := bt_state
          posts := iconPosts ++ [.audioTaskStatus bt_state] ++ streamingPosts }

/-- The settle step at the head of `Callback_Idle` (lines 667–678): once the
power-on sound icon's nominal duration has elapsed, force its timestamp to the
`UINT32_MAX` sentinel and schedule a status recomputation. -/
def tickSettle (now : Nat) (s : SBluetooth) : SBluetooth :=
  if s.power_on_sound_icon_ts ≠ 0 ∧ s.power_on_sound_icon_ts ≠ UINT32_MAX ∧
     msSince now s.power_on_sound_icon_ts > (SoundIconToLengthMapper .powerOn).getD 0 then
    { s with power_on_sound_icon_ts := UINT32_MAX
             update_bt_state := true
             update_bt_state_ts := now }
  else s

/-- One entry of the perpetual-icon reconciliation in
`update_infinite_sound_icons` (lines 292–316). -/
def infiniteIconStep (now : Nat) (s : SBluetooth) (icon : SoundIcon) (cond : Bool) :
    List PostedMsg :=
  if s.curr_sound_icon ≠ icon ∧ cond then
    if msSince now s.curr_sound_icon_begin_ts ≥ (SoundIconToLengthMapper s.curr_sound_icon).getD 0
    then [.requestSoundIcon icon .playImmediately true]
    else []
  else if s.curr_sound_icon = icon ∧ ¬ cond then [.stopPlayingSoundIcon icon]
  else []

/-- `update_infinite_sound_icons` (lines 292–316): reconcile the two
perpetual icons against the published status. -/
def update_infinite_sound_icons (now : Nat) (s : SBluetooth) (status : Status) :
    List PostedMsg :=
  infiniteIconStep now s .btPairing (status = .bluetoothPairing) ++
  infiniteIconStep now s .chainSlavePairing (status = .slavePairing)

/-- The gated status commit in `Callback_Idle` (lines 683–691). -/
def tickCommit (now : Nat) (s : SBluetooth) (status : Status)
    (soundIconsActive jackConnected : Bool) : HnbsResult :=
  if s.update_bt_state = true ∧
     msSince now s.update_bt_state_ts > c_update_bt_state_ts_duration ∧
     msSince now s.power_on_sound_icon_ts > 1000 then
    let r := handle_new_bt_state s status soundIconsActive jackConnected
    ⟨{ r.s with update_bt_state := false }, r.status, r.posts⟩
  else ⟨s, status, []⟩

/-- The auto-off accounting in `Callback_Idle` (lines 693–733), run only
while the system power state is `On`.  The returned `Bool` records whether
`actionslink_set_power_state(OFF)` was requested on this tick. -/
def tickAutoOff (now : Nat) (powerOn : Bool) (s : SBluetooth) : SBluetooth × Bool :=
  if powerOn then
    if s.number_of_connected_devices = 0 then
      if s.last_no_bt_connection_ts = 0 then
        ({ s with last_no_bt_connection_ts := now }, false)
      else if msSince now s.last_no_bt_connection_ts ≥ 300000 then
        ({ s with last_no_bt_connection_ts := 0 }, true)
      else (s, false)
    else ({ s with last_no_bt_connection_ts := 0 }, false)
  else (s, false)

/-- Result of one periodic idle tick. -/
structure TickResult where
  s : SBluetooth
  status : Status
  posts : List PostedMsg
  autoOffRequested : Bool
  deriving DecidableEq, Repr

/-- `threadConfig.Callback_Idle` (lines 664–734): power-on-icon settle step,
perpetual-icon reconciliation, gated status commit, auto-off accounting. -/
def Callback_Idle (now : Nat) (s : SBluetooth) (status : Status)
    (soundIconsActive jackConnected powerOn : Bool) : TickResult :=
  let s1 := tickSettle now s
  let infPosts := update_infinite_sound_icons now s1 status
  let c := tickCommit now s1 status soundIconsActive jackConnected
  let ao := tickAutoOff now powerOn c.s
  ⟨ao.1, c.status, infPosts ++ c.posts, ao.2⟩

/-- `actionslink_event_handlers.on_notify_audio_source` (lines 491–503). -/
def on_notify_audio_source (now : Nat) (src : AudioSource) (s : SBluetooth) : SBluetooth :=
  if s.audio_source = some src then s
  else { s with audio_source := some src
                update_bt_state := true
                update_bt_state_ts := now }

/-- `actionslink_event_handlers.on_notify_bt_connection` (lines 539–557). -/
def on_notify_bt_connection (s : SBluetooth) : SBluetooth × List PostedMsg :=
  let posts : List PostedMsg := [.requestSoundIcon .btConnected .playImmediately false]
  if s.number_of_connected_devices < 2 then
    ({ s with number_of_connected_devices := s.number_of_connected_devices + 1
              last_no_bt_connection_ts := 0 }, posts)
  else (s, posts)

/-- `actionslink_event_handlers.on_notify_bt_disconnection` (lines 558–579). -/
def on_notify_bt_disconnection (now : Nat) (s : SBluetooth) : SBluetooth × List PostedMsg :=
  if s.number_of_connected_devices > 0 then
    let n := s.number_of_connected_devices - 1
    let s' := { s with number_of_connected_devices := n }
    let s'' := if n = 0 ∧ s.last_no_bt_connection_ts = 0
               then { s' with last_no_bt_connection_ts := now } else s'
    (s'', [.requestSoundIcon .btDisconnected .playAfterCurrent false])
  else (s, [])

/-- `actionslink_event_handlers.on_notify_power_state`, `OFF` case
(lines 477–480): record the power-off confirmation. -/
def on_notify_power_state_off (s : SBluetooth) : SBluetooth :=
  { s with has_received_power_off_confirmation := true }

/-- A `Tua::RequestSoundIcon` message payload. -/
structure IconReq where
  sound_icon : SoundIcon
  playback_mode : PlaybackMode
  loop_forever : Bool
  deriving DecidableEq, Repr

/-- Result of processing a sound-icon message: new session state, messages
re-posted to the queue, and the playback/stop calls issued to the module. -/
structure IconHandlerResult where
  s : SBluetooth
  posts : List PostedMsg
  playCalls : List IconReq
  stopCalls : List SoundIcon
  deriving DecidableEq, Repr

/-- The `Tua::RequestSoundIcon` message handler (lines 1089–1122). -/
def handleRequestSoundIcon (soundIconsActive : Bool) (now : Nat) (p : IconReq)
    (s : SBluetooth) : IconHandlerResult :=
  if soundIconsActive then
    let posts : List PostedMsg :=
      if p.sound_icon = .btConnected ∧
         (s.power_on_sound_icon_ts = 0 ∨ msSince now s.power_on_sound_icon_ts < 500) then
        [.requestSoundIcon .btConnected .playImmediately false]
      else []
    let s1 := if p.sound_icon = .powerOn then { s with power_on_sound_icon_ts := now } else s
    { s := { s1 with curr_sound_icon := p.sound_icon, curr_sound_icon_begin_ts := now }
      posts := posts
      playCalls := [p]
      stopCalls := [] }
  else
    { s := s, posts := [], playCalls := [], stopCalls := [] }

/-- The `Tua::StopPlayingSoundIcon` message handler (lines 1123–1141). -/
def handleStopPlayingSoundIcon (soundIconsActive : Bool) (p : SoundIcon)
    (s : SBluetooth) : IconHandlerResult :=
  if soundIconsActive then
    { s := { s with curr_sound_icon := .none }, posts := [], playCalls := [], stopCalls := [p] }
  else
    { s := s, posts := [], playCalls := [], stopCalls := [] }

/-- External actions performed by the `Tus::SetPowerState` `Off` handler, in
program order. -/
inductive PowerAct
  | requestPowerOff
  | logPowerOffRequestFailed
  | logConfirmationTimeout
  | deinitTransport
  | resetLine (asserted : Bool)
  | powerLine (isOn : Bool)
  deriving DecidableEq, Repr

/-- The confirmation-poll loop of the `Off` handler (lines 786–791):
`while (board_get_ms_since(ts) < 1000 && !confirmed) { delay 10ms; tick; }`.
Each iteration lasts 10ms; `confirm i` says whether the module's power-off
confirmation is dispatched during iteration `i`'s `actionslink_tick`.
Returns the confirmation flag when the loop exits.  `fuel` only bounds the
recursion; 101 units are enough since the guard fails once `10 * i ≥ 1000`. -/
def offPollLoop (confirm : Nat → Bool) : Nat → Nat → Bool → Bool
  | 0, _, c => c
  | fuel + 1, i, c =>
    if 10 * i < 1000 ∧ c = false then offPollLoop confirm fuel (i + 1) (c || confirm i)
    else c

/-- The `Tus::SetPowerState` handler, `case Off` (lines 774–802).
`requestOk` models the return code of `actionslink_set_power_state(OFF)`;
`confirm` models the arrival of the module's confirmation during the poll
loop.  Returns the final session state and the list of external actions in
program order. -/
def handlePowerOff (requestOk : Bool) (confirm : Nat → Bool) (s : SBluetooth) :
    SBluetooth × List PowerAct :=
  let s1 := { s with has_received_power_off_confirmation := false
                     power_on_sound_icon_ts := 0 }
  let acts1 : List PowerAct :=
    [.requestPowerOff] ++ (if requestOk then [] else [.logPowerOffRequestFailed])
  let confirmed := offPollLoop confirm 101 0 s1.has_received_power_off_confirmation
  let acts2 : List PowerAct := if confirmed = false then [.logConfirmationTimeout] else []
  let s2 := { s1 with has_received_power_off_confirmation := confirmed
                      power_on_sound_icon_ts := 0 }
  (s2, acts1 ++ acts2 ++ [.deinitTransport, .resetLine true, .powerLine false])

/-- Environment of the `Tus::SetPowerState` `On` handler: when the module
reports ready, and when/what the first audio-source notification delivers. -/
structure OnEnv where
  readyFrom : Nat
  audioEv : Nat → Option AudioSource
  audioTime : Nat → Nat

/-- The ready-wait loop of the `On` handler (lines 813–817):
`while (not actionslink_is_ready()) { delay; tick; }`, modelled with fuel;
returns the iteration at which readiness was observed, or `none` if the fuel
ran out before the module reported ready. -/
def waitReady (readyFrom : Nat) : Nat → Nat → Option Nat
  | 0, i => if readyFrom ≤ i then some i else Option.none
  | fuel + 1, i => if readyFrom ≤ i then some i else waitReady readyFrom fuel (i + 1)

/-- The audio-source-wait loop of the `On` handler (lines 839–843):
`while (not s_bluetooth.audio_source.has_value()) { delay; tick; }`.
Each `actionslink_tick` may dispatch an audio-source notification, which runs
the real `on_notify_audio_source` handler.  Fuel-bounded; `none` means the
loop was still blocked when the fuel ran out. -/
def waitAudio (env : OnEnv) : Nat → Nat → SBluetooth → Option SBluetooth
  | 0, _, s => if s.audio_source.isSome then some s else Option.none
  | fuel + 1, i, s =>
    if s.audio_source.isSome then some s
    else
      let s' := match env.audioEv i with
        | some src => on_notify_audio_source (env.audioTime i) src s
        | Option.none => s
      waitAudio env fuel (i + 1) s'

/-- The `Tus::SetPowerState` handler, `case On` (lines 804–845): assert the
power/reset lines, initialise the transport, block until the module reports
ready, request logical power-on, then block until the first audio-source
report has been recorded.  `none` models a handler still blocked in one of
its wait loops after `fuel` iterations. -/
def handlePowerOn (env : OnEnv) (fuel : Nat) (s : SBluetooth) : Option SBluetooth :=
  match waitReady env.readyFrom fuel 0 with
  | Option.none => Option.none
  | some _ => waitAudio env fuel 0 s

/-!  Theorems. -/

/-- The §4.1 priority list, transcribed from the specification's words
(refinement reference for the status mapper). -/
def specStatusPriority (csb : CsbState) (pairing : BtPairingState) (audio : AudioSource)
    (jackConnected dfuActive usbAvailable isConnected : Bool) : Status :=
  match csb with
  | .broadcasting => .csbChainMaster
  | .receiverConnected => .chainSlave
  | .receiverPairing => .slavePairing
  | .disabled =>
    match pairing with
    | .btPairing => .bluetoothPairing
    | .csbBroadcasting => .csbChainMaster
    | .csbReceiving => .slavePairing
    | .idle =>
      if audio = .analog ∧ jackConnected then .auxConnected
      else if dfuActive then .dfuMode
      else if audio = .usb ∧ usbAvailable then .usbConnected
      else if isConnected then .bluetoothConnected
      else .bluetoothDisconnected

/-- C1: for every session-state snapshot with a known audio source, the status
computed by `handle_new_bt_state` follows the spec's strict priority order
(chain state via `CsbStateMapper`, else pairing state via
`PairingStateMapper`, else Aux, else DFU, else USB, else connected, else
disconnected); the mapping is a total function of these flags, hence total
and deterministic. -/
theorem status_mapper_priority_order :
    ∀ (csb : CsbState) (pairing : BtPairingState) (audio : AudioSource)
      (jackConnected dfuActive usbAvailable isConnected : Bool),
      computeBtState csb pairing audio jackConnected dfuActive usbAvailable isConnected =
        specStatusPriority csb pairing audio jackConnected dfuActive usbAvailable isConnected := by
  decide

/-- C10: when sound icons are globally disabled, the `Tua::RequestSoundIcon`
handler performs no playback call, posts nothing, and leaves the session
state (in particular `power_on_sound_icon_ts`, `curr_sound_icon`,
`curr_sound_icon_begin_ts`) unchanged, even for a power-on icon request; and
the `Tua::StopPlayingSoundIcon` handler issues no stop call and leaves
`curr_sound_icon` unchanged. -/
theorem sound_icons_inactive_noop :
    ∀ (now : Nat) (p : IconReq) (icon : SoundIcon) (s : SBluetooth),
      handleRequestSoundIcon false now p s = ⟨s, [], [], []⟩ ∧
      handleStopPlayingSoundIcon false icon s = ⟨s, [], [], []⟩ :=
  fun _ _ _ _ => ⟨rfl, rfl⟩

/-- `handle_new_bt_state` never mutates the session state except possibly
clearing `was_streaming`. -/
lemma handle_new_bt_state_state_eq (s : SBluetooth) (prev : Status) (a j : Bool) :
    (handle_new_bt_state s prev a j).s = s ∨
    (handle_new_bt_state s prev a j).s = { s with was_streaming := false } := by
  unfold handle_new_bt_state
  split
  · left; rfl
  · dsimp only
    split_ifs with h1 h2 h3
    · left; rfl
    · left; rfl
    · right; rfl
    · left; rfl

lemma handle_new_bt_state_power_ts (s : SBluetooth) (prev : Status) (a j : Bool) :
    (handle_new_bt_state s prev a j).s.power_on_sound_icon_ts = s.power_on_sound_icon_ts := by
  rcases handle_new_bt_state_state_eq s prev a j with h | h <;> rw [h]

lemma handle_new_bt_state_update_flag (s : SBluetooth) (prev : Status) (a j : Bool) :
    (handle_new_bt_state s prev a j).s.update_bt_state = s.update_bt_state := by
  rcases handle_new_bt_state_state_eq s prev a j with h | h <;> rw [h]

lemma handle_new_bt_state_count (s : SBluetooth) (prev : Status) (a j : Bool) :
    (handle_new_bt_state s prev a j).s.number_of_connected_devices =
      s.number_of_connected_devices := by
  rcases handle_new_bt_state_state_eq s prev a j with h | h <;> rw [h]

lemma handle_new_bt_state_last_ts (s : SBluetooth) (prev : Status) (a j : Bool) :
    (handle_new_bt_state s prev a j).s.last_no_bt_connection_ts =
      s.last_no_bt_connection_ts := by
  rcases handle_new_bt_state_state_eq s prev a j with h | h <;> rw [h]

lemma tickSettle_count (now : Nat) (s : SBluetooth) :
    (tickSettle now s).number_of_connected_devices = s.number_of_connected_devices := by
  unfold tickSettle; split_ifs <;> rfl

lemma tickSettle_last_ts (now : Nat) (s : SBluetooth) :
    (tickSettle now s).last_no_bt_connection_ts = s.last_no_bt_connection_ts := by
  unfold tickSettle; split_ifs <;> rfl

lemma tickCommit_count (now : Nat) (s : SBluetooth) (st : Status) (a j : Bool) :
    (tickCommit now s st a j).s.number_of_connected_devices =
      s.number_of_connected_devices := by
  unfold tickCommit
  split_ifs with h
  · exact handle_new_bt_state_count s st a j
  · rfl

lemma tickCommit_last_ts (now : Nat) (s : SBluetooth) (st : Status) (a j : Bool) :
    (tickCommit now s st a j).s.last_no_bt_connection_ts =
      s.last_no_bt_connection_ts := by
  unfold tickCommit
  split_ifs with h
  · exact handle_new_bt_state_last_ts s st a j
  · rfl

lemma tickAutoOff_update_flag (now : Nat) (p : Bool) (s : SBluetooth) :
    (tickAutoOff now p s).1.update_bt_state = s.update_bt_state := by
  unfold tickAutoOff; split_ifs <;> rfl

lemma tickAutoOff_power_ts (now : Nat) (p : Bool) (s : SBluetooth) :
    (tickAutoOff now p s).1.power_on_sound_icon_ts = s.power_on_sound_icon_ts := by
  unfold tickAutoOff; split_ifs <;> rfl

lemma tickAutoOff_congr (now : Nat) (p : Bool) (s₁ s₂ : SBluetooth)
    (hc : s₁.number_of_connected_devices = s₂.number_of_connected_devices)
    (hl : s₁.last_no_bt_connection_ts = s₂.last_no_bt_connection_ts) :
    (tickAutoOff now p s₁).1.last_no_bt_connection_ts =
        (tickAutoOff now p s₂).1.last_no_bt_connection_ts ∧
      (tickAutoOff now p s₁).2 = (tickAutoOff now p s₂).2 := by
  unfold tickAutoOff
  rw [hc, hl]
  split_ifs <;> simp [hl]

/-- On every idle tick, the connected-device count is untouched and the idle
timer/auto-off decision is exactly that of the auto-off block applied to the
incoming state. -/
lemma Callback_Idle_auto (now : Nat) (s : SBluetooth) (st : Status) (a j p : Bool) :
    (Callback_Idle now s st a j p).s.number_of_connected_devices =
        s.number_of_connected_devices ∧
      (Callback_Idle now s st a j p).s.last_no_bt_connection_ts =
        (tickAutoOff now p s).1.last_no_bt_connection_ts ∧
      (Callback_Idle now s st a j p).autoOffRequested = (tickAutoOff now p s).2 := by
  unfold Callback_Idle
  dsimp only
  have hc : (tickCommit now (tickSettle now s) st a j).s.number_of_connected_devices =
      s.number_of_connected_devices := by
    rw [tickCommit_count, tickSettle_count]
  have hl : (tickCommit now (tickSettle now s) st a j).s.last_no_bt_connection_ts =
      s.last_no_bt_connection_ts := by
    rw [tickCommit_last_ts, tickSettle_last_ts]
  obtain ⟨h1, h2⟩ := tickAutoOff_congr now p (tickCommit now (tickSettle now s) st a j).s s hc hl
  refine ⟨?_, h1, h2⟩
  have : ∀ q : Bool, (tickAutoOff now q (tickCommit now (tickSettle now s) st a j).s).1.number_of_connected_devices =
      (tickCommit now (tickSettle now s) st a j).s.number_of_connected_devices := by
    intro q; unfold tickAutoOff; split_ifs <;> rfl
  rw [this p, hc]

/-- C4: if the previously published status and the newly computed status are
both `CsbChainMaster` or both `ChainSlave`, `handle_new_bt_state` suppresses
the update: the published status is unchanged, nothing is posted (no
indicator request, no downstream audio-task notification), and the session
state is untouched. -/
theorem chain_role_update_suppressed (s : SBluetooth) (prev : Status)
    (active jack : Bool) (a : AudioSource)
    (hsrc : s.audio_source = some a)
    (hrole : (prev = .csbChainMaster ∧
        computeBtState s.csb_state s.pairing_state a jack
          s.dfu_mode_is_active s.is_usb_source_available s.is_connected = .csbChainMaster) ∨
      (prev = .chainSlave ∧
        computeBtState s.csb_state s.pairing_state a jack
          s.dfu_mode_is_active s.is_usb_source_available s.is_connected = .chainSlave)) :
    handle_new_bt_state s prev active jack = ⟨s, prev, []⟩ := by
  unfold handle_new_bt_state
  rw [hsrc]
  dsimp only
  split_ifs <;> rfl

/-- Witness for `chain_role_update_suppressed` at a concrete snapshot:
chain state `Broadcasting` reported while the previous status was already
`CsbChainMaster`. -/
theorem chain_role_update_suppressed_witness :
    handle_new_bt_state
        { SBluetooth.init with
            audio_source := some .a2dp1
            csb_state := .broadcasting
            power_on_sound_icon_ts := UINT32_MAX }
        .csbChainMaster true true =
      ⟨{ SBluetooth.init with
          audio_source := some .a2dp1
          csb_state := .broadcasting
          power_on_sound_icon_ts := UINT32_MAX }, .csbChainMaster, []⟩ :=
  chain_role_update_suppressed _ _ true true .a2dp1 rfl (Or.inl ⟨rfl, rfl⟩)

lemma tickSettle_audio (now : Nat) (s : SBluetooth) :
    (tickSettle now s).audio_source = s.audio_source := by
  unfold tickSettle; split_ifs <;> rfl

lemma Callback_Idle_power_ts (now : Nat) (s : SBluetooth) (st : Status) (a j p : Bool) :
    (Callback_Idle now s st a j p).s.power_on_sound_icon_ts =
      (tickSettle now s).power_on_sound_icon_ts := by
  unfold Callback_Idle
  dsimp only
  rw [tickAutoOff_power_ts]
  unfold tickCommit
  split_ifs with h
  · exact handle_new_bt_state_power_ts (tickSettle now s) st a j
  · rfl

lemma Callback_Idle_update_flag (now : Nat) (s : SBluetooth) (st : Status) (a j p : Bool) :
    (Callback_Idle now s st a j p).s.update_bt_state =
      (tickCommit now (tickSettle now s) st a j).s.update_bt_state := by
  unfold Callback_Idle
  dsimp only
  rw [tickAutoOff_update_flag]

/-- Events of the connection accounting: BT connect / disconnect
notifications. -/
inductive ConnEv
  | connect
  | disconnect (now : Nat)
  deriving DecidableEq, Repr

/-- Run a sequence of connection/disconnection notifications through the
real handlers. -/
def runConnEvents : List ConnEv → SBluetooth → SBluetooth
  | [], s => s
  | .connect :: rest, s => runConnEvents rest (on_notify_bt_connection s).1
  | .disconnect now :: rest, s => runConnEvents rest (on_notify_bt_disconnection now s).1

/-- C9: the connected-device count stays within `[0,2]` under every sequence
of connection and disconnection events; a connection event at count 2
leaves the session state unchanged, and a disconnection event at count 0
leaves the session state unchanged and posts nothing. -/
theorem connection_count_clamped :
    (∀ s : SBluetooth, 2 ≤ s.number_of_connected_devices →
        (on_notify_bt_connection s).1 = s) ∧
      (∀ (now : Nat) (s : SBluetooth), s.number_of_connected_devices = 0 →
        on_notify_bt_disconnection now s = (s, [])) ∧
      (∀ (evs : List ConnEv) (s : SBluetooth), s.number_of_connected_devices ≤ 2 →
        (runConnEvents evs s).number_of_connected_devices ≤ 2) := by
  have hconn : ∀ s : SBluetooth, s.number_of_connected_devices ≤ 2 →
      (on_notify_bt_connection s).1.number_of_connected_devices ≤ 2 := by
    intro s h
    unfold on_notify_bt_connection
    dsimp only
    split_ifs with hlt
    · simp only; omega
    · exact h
  have hdisc : ∀ (now : Nat) (s : SBluetooth), s.number_of_connected_devices ≤ 2 →
      (on_notify_bt_disconnection now s).1.number_of_connected_devices ≤ 2 := by
    intro now s h
    unfold on_notify_bt_disconnection
    dsimp only
    split_ifs with h1 h2 <;> simp <;> omega
  refine ⟨?_, ?_, ?_⟩
  · intro s h
    unfold on_notify_bt_connection
    dsimp only
    rw [if_neg (by omega)]
  · intro now s h
    unfold on_notify_bt_disconnection
    dsimp only
    rw [if_neg (by omega)]
  · intro evs
    induction evs with
    | nil => intro s h; exact h
    | cons ev rest ih =>
      intro s h
      cases ev with
      | connect => exact ih _ (hconn s h)
      | disconnect now => exact ih _ (hdisc now s h)

/-- Witness for `connection_count_clamped`: a third connection attempt at
count 2 is a no-op, a disconnection at count 0 is a no-op, and three
consecutive connection events never push the count above 2. -/
theorem connection_count_clamped_witness :
    (on_notify_bt_connection { SBluetooth.init with number_of_connected_devices := 2 }).1 =
        { SBluetooth.init with number_of_connected_devices := 2 } ∧
      on_notify_bt_disconnection 7 SBluetooth.init = (SBluetooth.init, []) ∧
      (runConnEvents [.connect, .connect, .connect]
          SBluetooth.init).number_of_connected_devices ≤ 2 :=
  ⟨connection_count_clamped.1 _ (by decide),
    connection_count_clamped.2.1 7 _ (by decide),
    connection_count_clamped.2.2 _ _ (by decide)⟩

/-- C5: (1) an honoured power-on indicator request records its start
timestamp; (2) once more than its nominal duration (1670ms per the duration
table) has elapsed, the periodic tick forces that timestamp to the settled
sentinel `UINT32_MAX`, for either value of the global indicator-enable flag;
(3) the sentinel is permanent under the tick; (4) with indicators disabled
every other effect of an indicator request is a no-op. -/
theorem power_on_icon_settle_bookkeeping :
    (∀ (now : Nat) (p : IconReq) (s : SBluetooth), p.sound_icon = .powerOn →
        (handleRequestSoundIcon true now p s).s.power_on_sound_icon_ts = now) ∧
      (∀ (now : Nat) (s : SBluetooth) (st : Status) (active jack pOn : Bool),
        s.power_on_sound_icon_ts ≠ 0 → s.power_on_sound_icon_ts ≠ UINT32_MAX →
        msSince now s.power_on_sound_icon_ts > 1670 →
        (Callback_Idle now s st active jack pOn).s.power_on_sound_icon_ts = UINT32_MAX) ∧
      (∀ (now : Nat) (s : SBluetooth) (st : Status) (active jack pOn : Bool),
        s.power_on_sound_icon_ts = UINT32_MAX →
        (Callback_Idle now s st active jack pOn).s.power_on_sound_icon_ts = UINT32_MAX) ∧
      (∀ (now : Nat) (p : IconReq) (s : SBluetooth),
        handleRequestSoundIcon false now p s = ⟨s, [], [], []⟩) := by
  refine ⟨?_, ?_, ?_, fun _ _ _ => rfl⟩
  · intro now p s hp
    unfold handleRequestSoundIcon
    rw [if_pos rfl, if_pos hp]
  · intro now s st active jack pOn h0 hM hdur
    rw [Callback_Idle_power_ts]
    unfold tickSettle
    rw [if_pos ⟨h0, hM, by simpa [SoundIconToLengthMapper] using hdur⟩]
  · intro now s st active jack pOn hM
    rw [Callback_Idle_power_ts]
    unfold tickSettle
    rw [if_neg (by simp [hM])]
    exact hM

/-- Witness for `power_on_icon_settle_bookkeeping` at concrete inputs (the
tick cases run with indicators globally disabled). -/
theorem power_on_icon_settle_bookkeeping_witness :
    (handleRequestSoundIcon true 42 ⟨.powerOn, .playImmediately, false⟩
        SBluetooth.init).s.power_on_sound_icon_ts = 42 ∧
      (Callback_Idle 2000 { SBluetooth.init with power_on_sound_icon_ts := 100 }
          .none false true false).s.power_on_sound_icon_ts = UINT32_MAX ∧
      (Callback_Idle 2000 { SBluetooth.init with power_on_sound_icon_ts := UINT32_MAX }
          .none false true false).s.power_on_sound_icon_ts = UINT32_MAX :=
  ⟨power_on_icon_settle_bookkeeping.1 42 _ _ rfl,
    power_on_icon_settle_bookkeeping.2.1 2000 _ .none false true false
      (by decide) (by decide) (by decide),
    power_on_icon_settle_bookkeeping.2.2.1 2000 _ .none false true false (by decide)⟩

/-- C2 (amended): a pending status recomputation is committed by the tick
(the pending flag consumed and `handle_new_bt_state` invoked) exactly when,
after the settle step, the flag is set, more than 200ms have elapsed since
the trigger timestamp, and the 32-bit elapsed time since
`power_on_sound_icon_ts` exceeds 1000ms.  The latter condition is checked
regardless of the indicator-enable flag, and the settled sentinel satisfies
it only once the tick counter itself exceeds 999ms. -/
theorem status_commit_gate_characterization (now : Nat) (s : SBluetooth) (st : Status)
    (active jack pOn : Bool) :
    (Callback_Idle now s st active jack pOn).s.update_bt_state = false ↔
      ((tickSettle now s).update_bt_state = false ∨
        (msSince now (tickSettle now s).update_bt_state_ts > 200 ∧
          msSince now (tickSettle now s).power_on_sound_icon_ts > 1000)) := by
  rw [Callback_Idle_update_flag]
  unfold tickCommit
  split_ifs with h
  · exact iff_of_true rfl (Or.inr ⟨h.2.1, h.2.2⟩)
  · constructor
    · intro h'
      exact Or.inl h'
    · rintro (h' | ⟨hA, hB⟩)
      · exact h'
      · cases hupd : (tickSettle now s).update_bt_state with
        | false => rfl
        | true => exact absurd ⟨hupd, hA, hB⟩ h

/-- A concrete session state refuting C2 as stated: pending update, trigger
more than 200ms old, power-on indicator fully settled (sentinel). -/
def c2CexState : SBluetooth :=
  { SBluetooth.init with
      update_bt_state := true
      update_bt_state_ts := 100
      power_on_sound_icon_ts := UINT32_MAX }

/-- C2 counterexample: at tick time 500 the pending update is more than
200ms old and the power-on indicator has fully settled (sentinel state), yet
the tick does not commit — the pending flag survives — because the wrapped
elapsed time since the sentinel, `501`, does not exceed 1000. -/
theorem status_commit_gate_cex :
    c2CexState.update_bt_state = true ∧
      msSince 500 c2CexState.update_bt_state_ts > 200 ∧
      c2CexState.power_on_sound_icon_ts = UINT32_MAX ∧
      (Callback_Idle 500 c2CexState .none true true true).s.update_bt_state = true := by
  decide

/-- Witness for `status_commit_gate_characterization`: with the trigger
201ms old and the sentinel aged past 1000ms, the next tick commits. -/
theorem status_commit_gate_characterization_witness :
    (Callback_Idle 2000 c2CexState .none true true true).s.update_bt_state = false :=
  (status_commit_gate_characterization 2000 c2CexState .none true true true).mpr
    (Or.inr ⟨by decide, by decide⟩)

lemma infiniteIconStep_false_no_request (now : Nat) (s : SBluetooth) (icon : SoundIcon) :
    ∀ m ∈ infiniteIconStep now s icon false, ∀ i mo lo,
      m ≠ PostedMsg.requestSoundIcon i mo lo := by
  intro m hm i mo lo
  unfold infiniteIconStep at hm
  split_ifs at hm with h1 h2 <;> simp_all

/-- C3 counterexample: in the initial state the audio source is still
unknown, yet processing a BT-connection hardware notification posts a
sound-icon request (the BT-connected icon). -/
theorem audio_source_unknown_cex :
    SBluetooth.init.audio_source = Option.none ∧
      (on_notify_bt_connection SBluetooth.init).2 =
        [PostedMsg.requestSoundIcon .btConnected .playImmediately false] :=
  ⟨rfl, rfl⟩

/-- C3 (amended): while `audio_source` is unknown the status mapper is never
invoked — `handle_new_bt_state` returns with the session state, the
published status and the post list untouched — and a periodic tick processed
in such a state (with the published status not a pairing status) leaves the
published status unchanged and posts no sound-icon play request; BT
connection/disconnection notifications, however, do post their
connected/disconnected icons regardless of the audio source. -/
theorem audio_source_unknown_no_status_decision :
    (∀ (s : SBluetooth) (prev : Status) (active jack : Bool),
        s.audio_source = Option.none →
        handle_new_bt_state s prev active jack = ⟨s, prev, []⟩) ∧
      (∀ (now : Nat) (s : SBluetooth) (st : Status) (active jack pOn : Bool),
        s.audio_source = Option.none →
        st ≠ .bluetoothPairing → st ≠ .slavePairing →
        (Callback_Idle now s st active jack pOn).status = st ∧
          ∀ m ∈ (Callback_Idle now s st active jack pOn).posts,
            ∀ i mo lo, m ≠ PostedMsg.requestSoundIcon i mo lo) := by
  have hnone : ∀ (s : SBluetooth) (prev : Status) (active jack : Bool),
      s.audio_source = Option.none →
      handle_new_bt_state s prev active jack = ⟨s, prev, []⟩ := by
    intro s prev active jack h
    unfold handle_new_bt_state
    rw [h]
  refine ⟨hnone, ?_⟩
  intro now s st active jack pOn hsrc hbp hsp
  have hsrc1 : (tickSettle now s).audio_source = Option.none := by
    rw [tickSettle_audio]; exact hsrc
  have hcommit : (tickCommit now (tickSettle now s) st active jack).status = st ∧
      (tickCommit now (tickSettle now s) st active jack).posts = [] := by
    unfold tickCommit
    split_ifs with h
    · rw [hnone _ _ _ _ hsrc1]
      exact ⟨rfl, rfl⟩
    · exact ⟨rfl, rfl⟩
  constructor
  · show (tickCommit now (tickSettle now s) st active jack).status = st
    exact hcommit.1
  · intro m hm i mo lo
    have hposts : (Callback_Idle now s st active jack pOn).posts =
        update_infinite_sound_icons now (tickSettle now s) st := by
      show update_infinite_sound_icons now (tickSettle now s) st ++
        (tickCommit now (tickSettle now s) st active jack).posts = _
      rw [hcommit.2]
      simp
    rw [hposts] at hm
    unfold update_infinite_sound_icons at hm
    rw [List.mem_append] at hm
    have hd1 : decide (st = Status.bluetoothPairing) = false := by
      simpa using hbp
    have hd2 : decide (st = Status.slavePairing) = false := by
      simpa using hsp
    rcases hm with hm | hm
    · rw [hd1] at hm
      exact infiniteIconStep_false_no_request now _ _ m hm i mo lo
    · rw [hd2] at hm
      exact infiniteIconStep_false_no_request now _ _ m hm i mo lo

/-- Witness for `audio_source_unknown_no_status_decision` at concrete
inputs. -/
theorem audio_source_unknown_no_status_decision_witness :
    handle_new_bt_state SBluetooth.init .none true true = ⟨SBluetooth.init, .none, []⟩ ∧
      (Callback_Idle 5 SBluetooth.init .none true true true).status = .none :=
  ⟨audio_source_unknown_no_status_decision.1 SBluetooth.init .none true true rfl,
    (audio_source_unknown_no_status_decision.2 5 SBluetooth.init .none true true true rfl
      (by decide) (by decide)).1⟩

/-- C6: the power `Off` handler (1) starts its confirmation poll from a
cleared `power_off_confirmed` flag regardless of the flag's prior value,
(2) issues the logical power-off request first, (3) logs an error when the
bounded poll ends unconfirmed, (4) polls no further once 1000ms have
elapsed, and (5) in every case ends with the transport teardown and the
reset/power line writes `reset(true)`, `power(false)`. -/
theorem power_off_teardown_unconditional (requestOk : Bool) (confirm : Nat → Bool)
    (s : SBluetooth) :
    (handlePowerOff requestOk confirm s).1.has_received_power_off_confirmation =
        offPollLoop confirm 101 0 false ∧
      (handlePowerOff requestOk confirm s).2.head? = some .requestPowerOff ∧
      (offPollLoop confirm 101 0 false = false →
        PowerAct.logConfirmationTimeout ∈ (handlePowerOff requestOk confirm s).2) ∧
      (∀ (fuel : Nat) (c : Bool), offPollLoop confirm fuel 100 c = c) ∧
      ∃ pre, (handlePowerOff requestOk confirm s).2 =
        pre ++ [.deinitTransport, .resetLine true, .powerLine false] := by
  refine ⟨rfl, ?_, ?_, ?_, ?_⟩
  · unfold handlePowerOff
    dsimp only
    split_ifs <;> rfl
  · intro h
    unfold handlePowerOff
    dsimp only
    rw [h]
    split_ifs <;> simp_all
  · intro fuel c
    cases fuel with
    | zero => rfl
    | succ n =>
      unfold offPollLoop
      rw [if_neg]
      intro hcontra
      omega
  · refine ⟨([PowerAct.requestPowerOff] ++
      (if requestOk then [] else [PowerAct.logPowerOffRequestFailed])) ++
      (if offPollLoop confirm 101 0 false = false
        then [PowerAct.logConfirmationTimeout] else []), ?_⟩
    rfl

/-- Witness for `power_off_teardown_unconditional` at a concrete input. -/
theorem power_off_teardown_unconditional_witness :
    (handlePowerOff true (fun _ => false) SBluetooth.init).2.head? =
        some PowerAct.requestPowerOff ∧
      PowerAct.logConfirmationTimeout ∈
        (handlePowerOff true (fun _ => false) SBluetooth.init).2 :=
  ⟨(power_off_teardown_unconditional true (fun _ => false) SBluetooth.init).2.1,
    (power_off_teardown_unconditional true (fun _ => false) SBluetooth.init).2.2.1
      (by decide)⟩

lemma waitAudio_some_isSome (env : OnEnv) :
    ∀ (fuel i : Nat) (s s' : SBluetooth),
      waitAudio env fuel i s = some s' → s'.audio_source.isSome = true := by
  intro fuel
  induction fuel with
  | zero =>
    intro i s s' h
    unfold waitAudio at h
    split_ifs at h with hs
    · cases h; exact hs
  | succ n ih =>
    intro i s s' h
    unfold waitAudio at h
    split_ifs at h with hs
    · cases h; exact hs
    · exact ih (i + 1) _ s' h

/-- C7: the power `On` handler does not complete (does not return and signal
readiness) before a first audio-source report has been recorded: whenever
the handler completes — after blocking first on module readiness and then on
the audio-source wait loop — the resulting session state has a known audio
source. -/
theorem power_on_waits_for_audio_source (env : OnEnv) (fuel : Nat)
    (s s' : SBluetooth) (h : handlePowerOn env fuel s = some s') :
    s'.audio_source.isSome = true := by
  unfold handlePowerOn at h
  cases hr : waitReady env.readyFrom fuel 0 with
  | none => rw [hr] at h; cases h
  | some k =>
    rw [hr] at h
    exact waitAudio_some_isSome env fuel 0 s s' h

/-- Environment for the `power_on_waits_for_audio_source` witness: the
module is ready at once and the first audio-source report (Analog) arrives
during the first wait iteration. -/
def c7WitnessEnv : OnEnv :=
  ⟨0, fun i => if i = 0 then some .analog else Option.none, fun _ => 0⟩

/-- Witness for `power_on_waits_for_audio_source` at a concrete run. -/
theorem power_on_waits_for_audio_source_witness :
    ((handlePowerOn c7WitnessEnv 3 SBluetooth.init).getD
        SBluetooth.init).audio_source.isSome = true := by
  cases hh : handlePowerOn c7WitnessEnv 3 SBluetooth.init with
  | none => exact absurd hh (by decide)
  | some s' =>
    have := power_on_waits_for_audio_source c7WitnessEnv 3 SBluetooth.init s' hh
    simpa [hh] using this

lemma msSince_sub (now ts : Nat) (h1 : ts ≤ now) (h2 : now - ts < U32) (h3 : ts < U32) :
    msSince now ts = now - ts := by
  unfold msSince
  rw [Nat.mod_eq_of_lt h3]
  have he : now + (U32 - ts) = (now - ts) + U32 := by
    have : ts ≤ U32 := Nat.le_of_lt h3
    omega
  rw [he, Nat.add_mod_right, Nat.mod_eq_of_lt h2]

/-- Inside a time window shorter than the 300000ms idle threshold, the
auto-off block never fires, and the idle timer afterwards is `0`, `now`, or
its previous value. -/
lemma tickAutoOff_no_fire (now : Nat) (p : Bool) (s : SBluetooth) (t0 : Nat)
    (hwin : t0 + 300000 ≤ U32)
    (hnow1 : t0 ≤ now) (hnow2 : now < t0 + 300000)
    (hinv : s.last_no_bt_connection_ts = 0 ∨
      (t0 ≤ s.last_no_bt_connection_ts ∧ s.last_no_bt_connection_ts ≤ now)) :
    (tickAutoOff now p s).2 = false ∧
      ((tickAutoOff now p s).1.last_no_bt_connection_ts = 0 ∨
        (tickAutoOff now p s).1.last_no_bt_connection_ts = now ∨
        (tickAutoOff now p s).1.last_no_bt_connection_ts = s.last_no_bt_connection_ts) := by
  unfold tickAutoOff
  split_ifs with hp hc hl hms
  · exact ⟨rfl, Or.inr (Or.inl rfl)⟩
  · exfalso
    rcases hinv with h0 | ⟨ha, hb⟩
    · exact hl h0
    · have hms' : msSince now s.last_no_bt_connection_ts = now - s.last_no_bt_connection_ts :=
        msSince_sub _ _ hb (by omega) (by omega)
      rw [hms'] at hms
      omega
  · exact ⟨rfl, Or.inr (Or.inr rfl)⟩
  · exact ⟨rfl, Or.inl rfl⟩
  · exact ⟨rfl, Or.inr (Or.inr rfl)⟩

/-- Events driving the idle accounting: a periodic tick (with its external
inputs), a BT connection, a BT disconnection. -/
inductive IdleEv
  | tick (now : Nat) (st : Status) (active jack pOn : Bool)
  | connect
  | disconnect (now : Nat)
  deriving DecidableEq, Repr

/-- Run a sequence of tick/connect/disconnect events through the real
handlers, counting radio power-off requests issued by the auto-off logic. -/
def idleRun : List IdleEv → SBluetooth → SBluetooth × Nat
  | [], s => (s, 0)
  | .tick now st a j p :: rest, s =>
    let r := Callback_Idle now s st a j p
    let q := idleRun rest r.s
    (q.1, (if r.autoOffRequested then 1 else 0) + q.2)
  | .connect :: rest, s => idleRun rest (on_notify_bt_connection s).1
  | .disconnect now :: rest, s => idleRun rest (on_notify_bt_disconnection now s).1

/-- The timestamps carried by a sequence of idle events. -/
def idleEvTimes : List IdleEv → List Nat
  | [] => []
  | .tick now _ _ _ _ :: rest => now :: idleEvTimes rest
  | .connect :: rest => idleEvTimes rest
  | .disconnect now :: rest => now :: idleEvTimes rest

lemma on_notify_bt_connection_last (s : SBluetooth) :
    (on_notify_bt_connection s).1.last_no_bt_connection_ts = 0 ∨
      (on_notify_bt_connection s).1.last_no_bt_connection_ts =
        s.last_no_bt_connection_ts := by
  unfold on_notify_bt_connection
  dsimp only
  split_ifs
  · exact Or.inl rfl
  · exact Or.inr rfl

lemma on_notify_bt_disconnection_last (now : Nat) (s : SBluetooth) :
    (on_notify_bt_disconnection now s).1.last_no_bt_connection_ts = now ∨
      (on_notify_bt_disconnection now s).1.last_no_bt_connection_ts =
        s.last_no_bt_connection_ts := by
  unfold on_notify_bt_disconnection
  dsimp only
  split_ifs
  · exact Or.inl rfl
  · exact Or.inr rfl
  · exact Or.inr rfl

/-- No auto-off request is ever issued during a run whose event times all lie
in a window `[t0, t0 + 300000)` shorter than the idle threshold, provided the
idle timer at entry is unset or a window time no later than every event. -/
lemma idleRun_no_auto_off (t0 : Nat) (hwin : t0 + 300000 ≤ U32) :
    ∀ (evs : List IdleEv) (s : SBluetooth),
      (∀ t ∈ idleEvTimes evs, t0 ≤ t ∧ t < t0 + 300000) →
      List.Pairwise (· ≤ ·) (idleEvTimes evs) →
      (s.last_no_bt_connection_ts = 0 ∨
        (t0 ≤ s.last_no_bt_connection_ts ∧
          ∀ t ∈ idleEvTimes evs, s.last_no_bt_connection_ts ≤ t)) →
      (idleRun evs s).2 = 0 := by
  intro evs
  induction evs with
  | nil => intro s _ _ _; rfl
  | cons ev rest ih =>
    intro s htimes hpair hinv
    cases ev with
    | tick now st a j p =>
      have hmem : now ∈ idleEvTimes (IdleEv.tick now st a j p :: rest) := by
        simp [idleEvTimes]
      have hnow := htimes now hmem
      obtain ⟨hcount, hlast, hauto⟩ := Callback_Idle_auto now s st a j p
      have hinv' : s.last_no_bt_connection_ts = 0 ∨
          (t0 ≤ s.last_no_bt_connection_ts ∧ s.last_no_bt_connection_ts ≤ now) := by
        rcases hinv with h0 | ⟨h1, h2⟩
        · exact Or.inl h0
        · exact Or.inr ⟨h1, h2 now hmem⟩
      obtain ⟨hfire, hlast3⟩ := tickAutoOff_no_fire now p s t0 hwin hnow.1 hnow.2 hinv'
      have htimes' : ∀ t ∈ idleEvTimes rest, t0 ≤ t ∧ t < t0 + 300000 := by
        intro t ht
        exact htimes t (by simp [idleEvTimes, ht])
      have hpair' : List.Pairwise (· ≤ ·) (idleEvTimes rest) :=
        (List.pairwise_cons.mp (by simpa [idleEvTimes] using hpair)).2
      have hlater : ∀ t ∈ idleEvTimes rest, now ≤ t :=
        (List.pairwise_cons.mp (by simpa [idleEvTimes] using hpair)).1
      have hinvr : (Callback_Idle now s st a j p).s.last_no_bt_connection_ts = 0 ∨
          (t0 ≤ (Callback_Idle now s st a j p).s.last_no_bt_connection_ts ∧
            ∀ t ∈ idleEvTimes rest,
              (Callback_Idle now s st a j p).s.last_no_bt_connection_ts ≤ t) := by
        rw [hlast]
        rcases hlast3 with h | h | h <;> rw [h]
        · exact Or.inl rfl
        · exact Or.inr ⟨hnow.1, hlater⟩
        · rcases hinv with h0 | ⟨h1, h2⟩
          · exact Or.inl h0
          · exact Or.inr ⟨h1, fun t ht => h2 t (by simp [idleEvTimes, ht])⟩
      show (if (Callback_Idle now s st a j p).autoOffRequested then 1 else 0) +
          (idleRun rest (Callback_Idle now s st a j p).s).2 = 0
      rw [hauto, hfire, ih _ htimes' hpair' hinvr]
      rfl
    | connect =>
      have hinvr : (on_notify_bt_connection s).1.last_no_bt_connection_ts = 0 ∨
          (t0 ≤ (on_notify_bt_connection s).1.last_no_bt_connection_ts ∧
            ∀ t ∈ idleEvTimes rest,
              (on_notify_bt_connection s).1.last_no_bt_connection_ts ≤ t) := by
        rcases on_notify_bt_connection_last s with h | h <;> rw [h]
        · exact Or.inl rfl
        · rcases hinv with h0 | ⟨h1, h2⟩
          · exact Or.inl h0
          · exact Or.inr ⟨h1, fun t ht => h2 t ht⟩
      exact ih _ htimes hpair hinvr
    | disconnect now =>
      have hmem : now ∈ idleEvTimes (IdleEv.disconnect now :: rest) := by
        simp [idleEvTimes]
      have hnow := htimes now hmem
      have htimes' : ∀ t ∈ idleEvTimes rest, t0 ≤ t ∧ t < t0 + 300000 := by
        intro t ht
        exact htimes t (by simp [idleEvTimes, ht])
      have hpair' : List.Pairwise (· ≤ ·) (idleEvTimes rest) :=
        (List.pairwise_cons.mp (by simpa [idleEvTimes] using hpair)).2
      have hlater : ∀ t ∈ idleEvTimes rest, now ≤ t :=
        (List.pairwise_cons.mp (by simpa [idleEvTimes] using hpair)).1
      have hinvr : (on_notify_bt_disconnection now s).1.last_no_bt_connection_ts = 0 ∨
          (t0 ≤ (on_notify_bt_disconnection now s).1.last_no_bt_connection_ts ∧
            ∀ t ∈ idleEvTimes rest,
              (on_notify_bt_disconnection now s).1.last_no_bt_connection_ts ≤ t) := by
        rcases on_notify_bt_disconnection_last now s with h | h <;> rw [h]
        · exact Or.inr ⟨hnow.1, hlater⟩
        · rcases hinv with h0 | ⟨h1, h2⟩
          · exact Or.inl h0
          · exact Or.inr ⟨h1, fun t ht => h2 t (by simp [idleEvTimes, ht])⟩
      exact ih _ htimes' hpair' hinvr

/-- C8: on a periodic tick with overall power state `On`: with no connected
devices and an idle timer at least 300000ms old, exactly one radio power-off
request is issued and the timer is reset to unset; with no connected devices
and the timer unset, the timer is started; with a positive count the timer
is cleared.  Consequently a run of tick/connect/disconnect events confined
to a window shorter than 300000ms that starts with the timer unset — in
particular a connection-count sequence `[0,1,0]` — never triggers
auto-off. -/
theorem idle_auto_off_accounting :
    (∀ (now : Nat) (s : SBluetooth) (st : Status) (active jack : Bool),
        s.number_of_connected_devices = 0 → s.last_no_bt_connection_ts ≠ 0 →
        msSince now s.last_no_bt_connection_ts ≥ 300000 →
        (Callback_Idle now s st active jack true).autoOffRequested = true ∧
          (Callback_Idle now s st active jack true).s.last_no_bt_connection_ts = 0) ∧
      (∀ (now : Nat) (s : SBluetooth) (st : Status) (active jack : Bool),
        s.number_of_connected_devices = 0 → s.last_no_bt_connection_ts = 0 →
        (Callback_Idle now s st active jack true).s.last_no_bt_connection_ts = now ∧
          (Callback_Idle now s st active jack true).autoOffRequested = false) ∧
      (∀ (now : Nat) (s : SBluetooth) (st : Status) (active jack : Bool),
        0 < s.number_of_connected_devices →
        (Callback_Idle now s st active jack true).s.last_no_bt_connection_ts = 0 ∧
          (Callback_Idle now s st active jack true).autoOffRequested = false) ∧
      (∀ (t0 : Nat) (evs : List IdleEv) (s : SBluetooth),
        t0 + 300000 ≤ U32 →
        (∀ t ∈ idleEvTimes evs, t0 ≤ t ∧ t < t0 + 300000) →
        List.Pairwise (· ≤ ·) (idleEvTimes evs) →
        s.last_no_bt_connection_ts = 0 →
        (idleRun evs s).2 = 0) := by
  refine ⟨?_, ?_, ?_, ?_⟩
  · intro now s st active jack hc hl hms
    obtain ⟨hcount, hlast, hauto⟩ := Callback_Idle_auto now s st active jack true
    refine ⟨?_, ?_⟩
    · rw [hauto]; simp [tickAutoOff, hc, hl, hms]
    · rw [hlast]; simp [tickAutoOff, hc, hl, hms]
  · intro now s st active jack hc hl
    obtain ⟨hcount, hlast, hauto⟩ := Callback_Idle_auto now s st active jack true
    refine ⟨?_, ?_⟩
    · rw [hlast]; simp [tickAutoOff, hc, hl]
    · rw [hauto]; simp [tickAutoOff, hc, hl]
  · intro now s st active jack hc
    have hc' : s.number_of_connected_devices ≠ 0 := Nat.pos_iff_ne_zero.mp hc
    obtain ⟨hcount, hlast, hauto⟩ := Callback_Idle_auto now s st active jack true
    refine ⟨?_, ?_⟩
    · rw [hlast]; simp [tickAutoOff, hc']
    · rw [hauto]; simp [tickAutoOff, hc']
  · intro t0 evs s hwin htimes hpair h0
    exact idleRun_no_auto_off t0 hwin evs s htimes hpair (Or.inl h0)

/-- Witness for `idle_auto_off_accounting` at concrete inputs, including a
`[0,1,0]` connect/disconnect run inside a sub-300000ms window. -/
theorem idle_auto_off_accounting_witness :
    ((Callback_Idle 300010 { SBluetooth.init with last_no_bt_connection_ts := 5 }
          .none true true true).autoOffRequested = true ∧
        (Callback_Idle 300010 { SBluetooth.init with last_no_bt_connection_ts := 5 }
          .none true true true).s.last_no_bt_connection_ts = 0) ∧
      (Callback_Idle 7 SBluetooth.init .none true true true).s.last_no_bt_connection_ts = 7 ∧
      (Callback_Idle 3 { SBluetooth.init with number_of_connected_devices := 1 }
          .none true true true).s.last_no_bt_connection_ts = 0 ∧
      (idleRun [.tick 10 .none true true true, .connect, .disconnect 50,
          .tick 100 .none true true true] SBluetooth.init).2 = 0 :=
  ⟨idle_auto_off_accounting.1 300010 _ .none true true (by decide) (by decide) (by decide),
    (idle_auto_off_accounting.2.1 7 SBluetooth.init .none true true (by decide) (by decide)).1,
    (idle_auto_off_accounting.2.2.1 3 _ .none true true (by decide)).1,
    idle_auto_off_accounting.2.2.2 10 _ SBluetooth.init (by decide) (by decide)
      (by decide) (by decide)⟩

end Mynd
